import Mathlib

/-!
Shallow embedding of the snake-game core engine (pure game-logic module):
grid geometry, collision predicates, rejection-sampling entity placement,
the per-tick state transition `updateGameState`, the autoplay heuristic
`getSmartDirection`, and the simplified boost-free engine variant.

Randomness is modelled as an oracle: streams of raw draws plus fuel for the
rejection-sampling loops, and pre-drawn Booleans for the spawn rolls and the
boost-kind coin flip.  JavaScript's `%` on numbers is truncated remainder,
modelled by `Int.tmod`.
-/

namespace SnakeArena

/-- Source `type Direction = 'up' | 'down' | 'left' | 'right'` -/
inductive Direction where
  | up
  | down
  | left
  | right
deriving DecidableEq, Repr, Inhabited

/-- Source `type GameMode = 'passthrough' | 'walls'` -/
inductive GameMode where
  | passthrough
  | walls
deriving DecidableEq, Repr, Inhabited

/-- Source `type BoostType = 'speed' | 'points'` -/
inductive BoostType where
  | speed
  | points
deriving DecidableEq, Repr, Inhabited

/-- Source `interface Position { x: number; y: number }` (grid coordinates, integers) -/
structure Position where
  x : Int
  y : Int
deriving DecidableEq, Repr, Inhabited

/-- Source `gridSize: { width: number; height: number }` -/
structure Grid where
  width : Int
  height : Int
deriving DecidableEq, Repr, Inhabited

/-- Source `interface Boost { position; type: BoostType; duration }` -/
structure Boost where
  position : Position
  type : BoostType
  duration : Int
deriving DecidableEq, Repr

/-- Source `interface Penalty { position; points }` -/
structure Penalty where
  position : Position
  points : Int
deriving DecidableEq, Repr

/-- Source `interface ActiveBoost { type: BoostType; remaining }` -/
structure ActiveBoost where
  type : BoostType
  remaining : Int
deriving DecidableEq, Repr

/-- Source `interface GameState` (full engine version, with boosts and penalties) -/
structure GameState where
  snake : List Position
  direction : Direction
  food : Position
  score : Int
  gameOver : Bool
  mode : GameMode
  gridSize : Grid
  boosts : List Boost
  penalties : List Penalty
  activeBoosts : List ActiveBoost
deriving DecidableEq, Repr

/-- One raw random draw `Math.floor(Math.random() * width/height)`, modelled as
an arbitrary pair of naturals reduced into the grid ranges. -/
def drawPosition (d : Nat × Nat) (gridSize : Grid) : Position :=
  ⟨(d.1 : Int) % gridSize.width, (d.2 : Int) % gridSize.height⟩

/-- Source `getNextHeadPosition(head, direction)`: translate the head one cell. -/
def getNextHeadPosition (head : Position) (direction : Direction) : Position :=
  match direction with
  | Direction.up => { head with y := head.y - 1 }
  | Direction.down => { head with y := head.y + 1 }
  | Direction.left => { head with x := head.x - 1 }
  | Direction.right => { head with x := head.x + 1 }

/-- Source `wrapPosition(pos, gridSize)`: `(pos.x + width) % width` with JavaScript's
truncated-remainder `%`, modelled by `Int.tmod`. -/
def wrapPosition (pos : Position) (gridSize : Grid) : Position :=
  ⟨Int.tmod (pos.x + gridSize.width) gridSize.width,
    Int.tmod (pos.y + gridSize.height) gridSize.height⟩

/-- Source `isCollisionWithSelf(head, snake)`: head hits `snake.slice(1)`. -/
def isCollisionWithSelf (head : Position) (snake : List Position) : Bool :=
  (snake.drop 1).any fun segment => segment.x == head.x && segment.y == head.y

/-- Source `isCollisionWithWalls(head, gridSize)`: a coordinate negative or past the edge. -/
def isCollisionWithWalls (head : Position) (gridSize : Grid) : Bool :=
  decide (head.x < 0) || decide (gridSize.width ≤ head.x) ||
    decide (head.y < 0) || decide (gridSize.height ≤ head.y)

/-- Source `isOppositeDirection(current, next)`: the four reversing pairs. -/
def isOppositeDirection (current next : Direction) : Bool :=
  (current == Direction.up && next == Direction.down) ||
  (current == Direction.down && next == Direction.up) ||
  (current == Direction.left && next == Direction.right) ||
  (current == Direction.right && next == Direction.left)

/-- Source `generateFood(snake, gridSize)`: rejection sampling over a draw stream;
the do-while loop is given explicit fuel, `none` on exhaustion. -/
def generateFood (draws : Nat → Nat × Nat) (snake : List Position) (gridSize : Grid) :
    Nat → Option Position
  | 0 => none
  | n + 1 =>
    let food := drawPosition (draws n) gridSize
    if snake.any fun segment => segment.x == food.x && segment.y == food.y then
      generateFood draws snake gridSize n
    else
      some food

/-- Source `isPositionOccupied(pos, snake, food, boosts, penalties)` -/
def isPositionOccupied (pos : Position) (snake : List Position) (food : Position)
    (boosts : List Boost) (penalties : List Penalty) : Bool :=
  (snake.any fun s => s.x == pos.x && s.y == pos.y) ||
  (food.x == pos.x && food.y == pos.y) ||
  (boosts.any fun b => b.position.x == pos.x && b.position.y == pos.y) ||
  (penalties.any fun p => p.position.x == pos.x && p.position.y == pos.y)

/-- Source `generateBoost(...)`: rejection sampling against `isPositionOccupied`;
kind by coin flip (`kindSpeed` models `Math.random() < 0.5`), duration 50. -/
def generateBoost (draws : Nat → Nat × Nat) (kindSpeed : Bool) (snake : List Position)
    (food : Position) (gridSize : Grid) (existingBoosts : List Boost)
    (penalties : List Penalty) : Nat → Option Boost
  | 0 => none
  | n + 1 =>
    let position := drawPosition (draws n) gridSize
    if isPositionOccupied position snake food existingBoosts penalties then
      generateBoost draws kindSpeed snake food gridSize existingBoosts penalties n
    else
      some { position := position,
             type := if kindSpeed then BoostType.speed else BoostType.points,
             duration := 50 }

/-- Source `generatePenalty(...)`: same placement exclusivity, points = -20. -/
def generatePenalty (draws : Nat → Nat × Nat) (snake : List Position) (food : Position)
    (gridSize : Grid) (boosts : List Boost) (existingPenalties : List Penalty) :
    Nat → Option Penalty
  | 0 => none
  | n + 1 =>
    let position := drawPosition (draws n) gridSize
    if isPositionOccupied position snake food boosts existingPenalties then
      generatePenalty draws snake food gridSize boosts existingPenalties n
    else
      some { position := position, points := -20 }

/-- Oracle for every random decision one `updateGameState` tick can make. -/
structure Rand where
  foodDraws : Nat → Nat × Nat
  foodFuel : Nat
  boostRoll : Bool
  boostKindSpeed : Bool
  boostDraws : Nat → Nat × Nat
  boostFuel : Nat
  penaltyRoll : Bool
  penaltyDraws : Nat → Nat × Nat
  penaltyFuel : Nat

/-- Direction resolution: a proposed direction is taken unless it reverses. -/
def resolveDirection (state : GameState) (newDirection : Option Direction) : Direction :=
  match newDirection with
  | some d => if isOppositeDirection state.direction d then state.direction else d
  | none => state.direction

/-- The head cell the resolved move targets: one step from the current head,
wrapped in passthrough mode (in walls mode the raw cell is used). -/
def resolvedHead (state : GameState) (newDirection : Option Direction) : Position :=
  let nextHead := getNextHeadPosition state.snake.headI (resolveDirection state newDirection)
  if state.mode == GameMode.passthrough then wrapPosition nextHead state.gridSize else nextHead

/-- Active-boost aging: decrement every `remaining`, drop those not `> 0`. -/
def ageBoosts (activeBoosts : List ActiveBoost) : List ActiveBoost :=
  (activeBoosts.map fun boost => { boost with remaining := boost.remaining - 1 }).filter
    fun boost => decide (0 < boost.remaining)

/-- Source `pointsMultiplier`: 2 if a points-kind boost is active after aging, else 1. -/
def pointsMultiplier (aged : List ActiveBoost) : Int :=
  if aged.any fun b => b.type == BoostType.points then 2 else 1

/-- The body of `updateGameState` after the wall and self-collision early
returns: aging, food consumption, boost/penalty consumption, stochastic
spawning, and the final record assembly. -/
def stepBody (state : GameState) (direction : Direction) (nextHead : Position)
    (rand : Rand) : Option GameState :=
  let newActiveBoosts := ageBoosts state.activeBoosts
  let multiplier := pointsMultiplier newActiveBoosts
  let eats := nextHead.x == state.food.x && nextHead.y == state.food.y
  let grownSnake := nextHead :: state.snake
  match (if eats then generateFood rand.foodDraws grownSnake state.gridSize rand.foodFuel
         else some state.food) with
  | none => none
  | some newFood =>
    let newSnake := if eats then grownSnake else grownSnake.dropLast
    let scoreAfterFood := if eats then state.score + 10 * multiplier else state.score
    let collected := state.boosts.find? fun b =>
      b.position.x == nextHead.x && b.position.y == nextHead.y
    let newBoosts :=
      match collected with
      | some _ => state.boosts.eraseP fun b =>
          b.position.x == nextHead.x && b.position.y == nextHead.y
      | none => state.boosts
    let newActive :=
      match collected with
      | some b => newActiveBoosts ++ [{ type := b.type, remaining := b.duration }]
      | none => newActiveBoosts
    let hitPenalty := state.penalties.find? fun p =>
      p.position.x == nextHead.x && p.position.y == nextHead.y
    let newPenalties :=
      match hitPenalty with
      | some _ => state.penalties.eraseP fun p =>
          p.position.x == nextHead.x && p.position.y == nextHead.y
      | none => state.penalties
    let newScore :=
      match hitPenalty with
      | some p => max 0 (scoreAfterFood + p.points)
      | none => scoreAfterFood
    match (if rand.boostRoll && decide (newBoosts.length < 2) then
             (generateBoost rand.boostDraws rand.boostKindSpeed newSnake newFood
               state.gridSize newBoosts newPenalties rand.boostFuel).map
               fun b => newBoosts ++ [b]
           else some newBoosts) with
    | none => none
    | some finalBoosts =>
      match (if rand.penaltyRoll && decide (newPenalties.length < 2) then
               (generatePenalty rand.penaltyDraws newSnake newFood state.gridSize
                 finalBoosts newPenalties rand.penaltyFuel).map
                 fun p => newPenalties ++ [p]
             else some newPenalties) with
      | none => none
      | some finalPenalties =>
        some { state with
          snake := newSnake
          direction := direction
          food := newFood
          score := newScore
          boosts := finalBoosts
          penalties := finalPenalties
          activeBoosts := newActive }

/-- Source `updateGameState(state, newDirection?)`: the single-tick transition of the
full engine.  `none` only when a rejection-sampling loop runs out of fuel. -/
def updateGameState (state : GameState) (newDirection : Option Direction)
    (rand : Rand) : Option GameState :=
  let direction := resolveDirection state newDirection
  let nextHead := resolvedHead state newDirection
  if state.mode == GameMode.walls && isCollisionWithWalls nextHead state.gridSize then
    some { state with gameOver := true }
  else if isCollisionWithSelf nextHead state.snake then
    some { state with gameOver := true }
  else
    stepBody state direction nextHead rand

/-- One scored candidate of the autoplay heuristic. -/
structure ScoredDirection where
  direction : Direction
  score : Int
deriving DecidableEq, Repr

/-- Scoring of a single candidate direction inside `getSmartDirection`. -/
def directionScore (snake : List Position) (food : Position) (mode : GameMode)
    (gridSize : Grid) (head : Position) (dir : Direction) : ScoredDirection :=
  let nextPos := getNextHeadPosition head dir
  let wrappedPos := if mode == GameMode.passthrough then wrapPosition nextPos gridSize
                    else nextPos
  if mode == GameMode.walls && isCollisionWithWalls wrappedPos gridSize then
    { direction := dir, score := -1000 }
  else if isCollisionWithSelf wrappedPos snake then
    { direction := dir, score := -500 }
  else
    { direction := dir,
      score := -(|wrappedPos.x - food.x| + |wrappedPos.y - food.y|) }

/-- Source `getSmartDirection(snake, food, currentDirection, mode, gridSize)`: greedy
one-ply lookahead; reversal filtered out up front, candidates sorted by
descending score (stable), first maximum wins, fallback currentDirection. -/
def getSmartDirection (snake : List Position) (food : Position)
    (currentDirection : Direction) (mode : GameMode) (gridSize : Grid) : Direction :=
  let head := snake.headI
  let possibleDirections : List Direction :=
    [Direction.up, Direction.down, Direction.left, Direction.right]
  let validDirections := possibleDirections.filter fun dir =>
    !isOppositeDirection currentDirection dir
  let scoredDirections := validDirections.map (directionScore snake food mode gridSize head)
  let sorted := scoredDirections.insertionSort fun a b => b.score ≤ a.score
  match sorted.head? with
  | some best => best.direction
  | none => currentDirection

/-! The simplified boost-free engine variant (second source file): same types
minus boosts/penalties/active-boosts, and a transition with only movement,
growth, and food scoring. -/

namespace Simple

/-- Source `interface GameState` of the simplified engine (no boost fields). -/
structure GameState where
  snake : List Position
  direction : Direction
  food : Position
  score : Int
  gameOver : Bool
  mode : GameMode
  gridSize : Grid
deriving DecidableEq, Repr

/-- Source `updateGameState(state, newDirection?)` of the simplified engine:
direction resolution, head computation, wall/self collision, food growth
(+10, no multiplier), tail drop otherwise. -/
def updateGameState (state : GameState) (newDirection : Option Direction)
    (foodDraws : Nat → Nat × Nat) (foodFuel : Nat) : Option GameState :=
  let direction :=
    match newDirection with
    | some d => if isOppositeDirection state.direction d then state.direction else d
    | none => state.direction
  let nextHead0 := getNextHeadPosition state.snake.headI direction
  let nextHead := if state.mode == GameMode.passthrough then
      wrapPosition nextHead0 state.gridSize
    else nextHead0
  if state.mode == GameMode.walls && isCollisionWithWalls nextHead state.gridSize then
    some { state with gameOver := true }
  else if isCollisionWithSelf nextHead state.snake then
    some { state with gameOver := true }
  else
    let grownSnake := nextHead :: state.snake
    if nextHead.x == state.food.x && nextHead.y == state.food.y then
      match generateFood foodDraws grownSnake state.gridSize foodFuel with
      | none => none
      | some newFood =>
        some { state with
          snake := grownSnake
          direction := direction
          food := newFood
          score := state.score + 10 }
    else
      some { state with
        snake := grownSnake.dropLast
        direction := direction }

end Simple

/-- Projection of a full-engine state onto the simplified engine's state type. -/
def toSimple (s : GameState) : Simple.GameState :=
  { snake := s.snake, direction := s.direction, food := s.food, score := s.score,
    gameOver := s.gameOver, mode := s.mode, gridSize := s.gridSize }

/-! ### Helper lemmas -/

theorem stepBody_gameOver {s : GameState} {dir : Direction} {nh : Position} {r : Rand}
    {t : GameState} (h : stepBody s dir nh r = some t) : t.gameOver = s.gameOver := by
  simp only [stepBody] at h
  split at h
  · exact absurd h (by simp)
  · split at h
    · exact absurd h (by simp)
    · split at h
      · exact absurd h (by simp)
      · cases h
        rfl

theorem generateFood_not_on_snake {draws : Nat → Nat × Nat} {snake : List Position}
    {gridSize : Grid} : ∀ {fuel : Nat} {p : Position},
    generateFood draws snake gridSize fuel = some p →
    ∀ seg ∈ snake, ¬(seg.x = p.x ∧ seg.y = p.y) := by
  intro fuel
  induction fuel with
  | zero => intro p h; simp [generateFood] at h
  | succ n ih =>
    intro p h
    simp only [generateFood] at h
    split at h
    · exact ih h
    · rename_i hcond
      cases h
      intro seg hseg hxy
      exact hcond (List.any_eq_true.mpr ⟨seg, hseg, by simp [hxy.1, hxy.2]⟩)

theorem stepBody_food_not_on_snake {s : GameState} {dir : Direction} {nh : Position}
    {r : Rand} {t : GameState}
    (hfood : ∀ seg ∈ s.snake, ¬(seg.x = s.food.x ∧ seg.y = s.food.y))
    (h : stepBody s dir nh r = some t) :
    ∀ seg ∈ t.snake, ¬(seg.x = t.food.x ∧ seg.y = t.food.y) := by
  simp only [stepBody] at h
  split at h
  · exact absurd h (by simp)
  · rename_i newFood heq
    split at h
    · exact absurd h (by simp)
    · split at h
      · exact absurd h (by simp)
      · cases h
        simp only
        by_cases heats : (nh.x == s.food.x && nh.y == s.food.y) = true
        · rw [if_pos heats] at heq
          simp only [heats, if_true]
          exact generateFood_not_on_snake heq
        · rw [if_neg heats] at heq
          cases heq
          simp only [heats, if_false]
          intro seg hseg hxy
          have hseg2 : seg ∈ nh :: s.snake := List.dropLast_subset _ hseg
          rcases List.mem_cons.mp hseg2 with hsegh | hsegt
          · subst hsegh
            exact heats (by simp [hxy.1, hxy.2])
          · exact hfood seg hsegt hxy

theorem stepBody_activeBoosts {s : GameState} {dir : Direction} {nh : Position}
    {r : Rand} {t : GameState}
    (hnb : ∀ bb ∈ s.boosts, ¬(bb.position.x = nh.x ∧ bb.position.y = nh.y))
    (h : stepBody s dir nh r = some t) :
    t.activeBoosts = ageBoosts s.activeBoosts := by
  have hfind : (s.boosts.find? fun b => b.position.x == nh.x && b.position.y == nh.y) = none := by
    rw [List.find?_eq_none]
    intro bb hbb
    simp only [Bool.and_eq_true, beq_iff_eq, not_and]
    exact fun hx hy => hnb bb hbb ⟨hx, hy⟩
  simp only [stepBody] at h
  split at h
  · exact absurd h (by simp)
  · split at h
    · exact absurd h (by simp)
    · split at h
      · exact absurd h (by simp)
      · cases h
        simp only [hfind]

theorem tailSeg_mem_drop_one {l : List Position} {a : Position}
    (hlen : 2 ≤ l.length) (hlast : l.getLast? = some a) : a ∈ l.drop 1 := by
  match l with
  | [] => simp at hlen
  | [x] => simp at hlen
  | x :: y :: rest =>
    rw [List.getLast?_cons_cons] at hlast
    exact List.mem_of_getLast?_eq_some hlast

theorem pointsMultiplier_pos (aged : List ActiveBoost) : 0 < pointsMultiplier aged := by
  unfold pointsMultiplier
  split <;> decide

theorem stepBody_score_nonneg {s : GameState} {dir : Direction} {nh : Position} {r : Rand}
    {t : GameState} (h0 : 0 ≤ s.score) (h : stepBody s dir nh r = some t) : 0 ≤ t.score := by
  have hmul := pointsMultiplier_pos (ageBoosts s.activeBoosts)
  simp only [stepBody] at h
  split at h
  · exact absurd h (by simp)
  · split at h
    · exact absurd h (by simp)
    · split at h
      · exact absurd h (by simp)
      · cases h
        simp only
        split
        · exact le_max_left 0 _
        · split
          · nlinarith
          · exact h0

/-! ### Concrete example data for witnesses -/

/-- A deterministic randomness oracle: food draws always (0,0), one unit of
fuel, no spawn rolls. -/
def exRand : Rand :=
  { foodDraws := fun _ => (0, 0), foodFuel := 1,
    boostRoll := false, boostKindSpeed := false,
    boostDraws := fun _ => (0, 0), boostFuel := 0,
    penaltyRoll := false, penaltyDraws := fun _ => (0, 0), penaltyFuel := 0 }

/-- A walls-mode state whose snake is about to run off the left edge. -/
def exWallState : GameState :=
  { snake := [⟨0, 5⟩, ⟨1, 5⟩], direction := Direction.left, food := ⟨10, 10⟩,
    score := 0, gameOver := false, mode := GameMode.walls, gridSize := ⟨25, 25⟩,
    boosts := [], penalties := [], activeBoosts := [] }

/-- A walls-mode state whose snake is about to eat the food at (6,5). -/
def exEatState : GameState :=
  { snake := [⟨5, 5⟩, ⟨4, 5⟩], direction := Direction.right, food := ⟨6, 5⟩,
    score := 0, gameOver := false, mode := GameMode.walls, gridSize := ⟨25, 25⟩,
    boosts := [], penalties := [], activeBoosts := [] }

/-- The state one `updateGameState` tick (with `exRand`) produces from
`exEatState`: the snake has grown onto (6,5), food re-placed at (0,0),
score 10. -/
def exEatResult : GameState :=
  { snake := [⟨6, 5⟩, ⟨5, 5⟩, ⟨4, 5⟩], direction := Direction.right, food := ⟨0, 0⟩,
    score := 10, gameOver := false, mode := GameMode.walls, gridSize := ⟨25, 25⟩,
    boosts := [], penalties := [], activeBoosts := [] }

/-! ### Theorems for the claims -/

/-- C6 (counterexample): `wrapPosition` does NOT compute the true mathematical
modulo for arbitrarily negative inputs: at x = -26 on a width-25 grid it
returns -1 (JavaScript truncated remainder), which is not in [0, 25). -/
theorem wrapPosition_not_math_mod :
    wrapPosition ⟨-26, 0⟩ ⟨25, 25⟩ = ⟨-1, 0⟩ ∧
      ¬(0 ≤ (wrapPosition ⟨-26, 0⟩ ⟨25, 25⟩).x) := by
  decide

/-- C6 (amended): for coordinates no smaller than the negated grid dimension
(the only inputs the engine ever feeds it), `wrapPosition` returns the true
mathematical modulo of each coordinate: a value in [0, width) resp.
[0, height) congruent to the input; e.g. x = -1 on a width-25 grid becomes 24. -/
theorem wrapPosition_math_mod (pos : Position) (gridSize : Grid)
    (hw : 0 < gridSize.width) (hh : 0 < gridSize.height)
    (hx : -gridSize.width ≤ pos.x) (hy : -gridSize.height ≤ pos.y) :
    0 ≤ (wrapPosition pos gridSize).x ∧ (wrapPosition pos gridSize).x < gridSize.width ∧
      (wrapPosition pos gridSize).x % gridSize.width = pos.x % gridSize.width ∧
    0 ≤ (wrapPosition pos gridSize).y ∧ (wrapPosition pos gridSize).y < gridSize.height ∧
      (wrapPosition pos gridSize).y % gridSize.height = pos.y % gridSize.height := by
  have hx0 : (0 : Int) ≤ pos.x + gridSize.width := by linarith
  have hy0 : (0 : Int) ≤ pos.y + gridSize.height := by linarith
  have ex : (wrapPosition pos gridSize).x = (pos.x + gridSize.width) % gridSize.width :=
    Int.tmod_eq_emod hx0 (le_of_lt hw)
  have ey : (wrapPosition pos gridSize).y = (pos.y + gridSize.height) % gridSize.height :=
    Int.tmod_eq_emod hy0 (le_of_lt hh)
  rw [ex, ey]
  refine ⟨Int.emod_nonneg _ (ne_of_gt hw), Int.emod_lt_of_pos _ hw, ?_,
    Int.emod_nonneg _ (ne_of_gt hh), Int.emod_lt_of_pos _ hh, ?_⟩
  · rw [Int.emod_emod_of_dvd _ dvd_rfl, Int.add_emod_self]
  · rw [Int.emod_emod_of_dvd _ dvd_rfl, Int.add_emod_self]

/-- C6 (witness for the amended theorem at a concrete input). -/
theorem wrapPosition_math_mod_witness :
    0 ≤ (wrapPosition ⟨-1, 3⟩ ⟨25, 25⟩).x ∧ (wrapPosition ⟨-1, 3⟩ ⟨25, 25⟩).x < 25 ∧
      (wrapPosition ⟨-1, 3⟩ ⟨25, 25⟩).x % 25 = (-1) % 25 ∧
    0 ≤ (wrapPosition ⟨-1, 3⟩ ⟨25, 25⟩).y ∧ (wrapPosition ⟨-1, 3⟩ ⟨25, 25⟩).y < 25 ∧
      (wrapPosition ⟨-1, 3⟩ ⟨25, 25⟩).y % 25 = 3 % 25 :=
  wrapPosition_math_mod ⟨-1, 3⟩ ⟨25, 25⟩ (by decide) (by decide) (by decide) (by decide)

/-- C2: in walls mode, a resolved move out of bounds returns the input state
with only `gameOver` flipped to true; every other field is exactly preserved
(the record-update equality says precisely this). -/
theorem updateGameState_wall_endsGame (state : GameState) (nd : Option Direction)
    (rand : Rand) (hmode : state.mode = GameMode.walls)
    (hout : isCollisionWithWalls (resolvedHead state nd) state.gridSize = true) :
    updateGameState state nd rand = some { state with gameOver := true } := by
  simp [updateGameState, hmode, hout]

/-- C5: the engine never resurrects a terminal state — on every return path
of `updateGameState`, if the input has `gameOver = true` so does the output. -/
theorem updateGameState_gameOver_persists (state : GameState) (nd : Option Direction)
    (rand : Rand) (t : GameState) (hover : state.gameOver = true)
    (h : updateGameState state nd rand = some t) : t.gameOver = true := by
  simp only [updateGameState] at h
  split at h
  · cases h; rfl
  · split at h
    · cases h; rfl
    · rw [stepBody_gameOver h]; exact hover

/-- C3: scores never go negative — any `updateGameState` call on a state with
non-negative score returns a state with non-negative score (the penalty branch
clamps at zero via `max 0`). -/
theorem updateGameState_score_nonneg (state : GameState) (nd : Option Direction)
    (rand : Rand) (t : GameState) (h0 : 0 ≤ state.score)
    (h : updateGameState state nd rand = some t) : 0 ≤ t.score := by
  simp only [updateGameState] at h
  split at h
  · cases h; exact h0
  · split at h
    · cases h; exact h0
    · exact stepBody_score_nonneg h0 h

/-- C2 (witness): the spec's own scenario — snake [(0,5),(1,5)] heading left
in walls mode ends the game and changes nothing else. -/
theorem updateGameState_wall_endsGame_witness :
    updateGameState exWallState none exRand = some { exWallState with gameOver := true } :=
  updateGameState_wall_endsGame exWallState none exRand (by decide) (by decide)

/-- C5 (witness): a terminal state fed through a non-colliding eat tick still
comes out with `gameOver = true`. -/
theorem updateGameState_gameOver_persists_witness :
    ({ exEatResult with gameOver := true } : GameState).gameOver = true :=
  updateGameState_gameOver_persists { exEatState with gameOver := true } none exRand
    { exEatResult with gameOver := true } (by decide) (by decide)

/-- C3 (witness): the eat tick from `exEatState` yields score 10 ≥ 0. -/
theorem updateGameState_score_nonneg_witness : (0 : Int) ≤ exEatResult.score :=
  updateGameState_score_nonneg exEatState none exRand exEatResult (by decide) (by decide)

/-- C4: if no snake segment sits on the food cell, then after any
`updateGameState` call that did not return `gameOver = true`, the food of the
returned state differs from every segment of the returned snake (on an eat
tick `generateFood` rejects any cell of the grown snake; otherwise the food
cell is unchanged and the new head provably missed it). -/
theorem updateGameState_food_not_on_snake (state : GameState) (nd : Option Direction)
    (rand : Rand) (t : GameState)
    (hfood : ∀ seg ∈ state.snake, ¬(seg.x = state.food.x ∧ seg.y = state.food.y))
    (h : updateGameState state nd rand = some t) (hlive : t.gameOver = false) :
    ∀ seg ∈ t.snake, ¬(seg.x = t.food.x ∧ seg.y = t.food.y) := by
  simp only [updateGameState] at h
  split at h
  · cases h
    exact hfood
  · split at h
    · cases h
      exact hfood
    · exact stepBody_food_not_on_snake hfood h

/-- C4 (witness): from `exEatState` the eaten food is re-placed at (0,0), off
the grown snake — in particular off the new head (6,5). -/
theorem updateGameState_food_not_on_snake_witness :
    ¬((⟨6, 5⟩ : Position).x = exEatResult.food.x ∧
        (⟨6, 5⟩ : Position).y = exEatResult.food.y) :=
  updateGameState_food_not_on_snake exEatState none exRand exEatResult
    (by decide) (by decide) (by decide) ⟨6, 5⟩ (by decide)

theorem stepBody_eat {s : GameState} {dir : Direction} {nh : Position} {r : Rand}
    {t : GameState}
    (heat : nh.x = s.food.x ∧ nh.y = s.food.y)
    (hpen : ∀ p ∈ s.penalties, ¬(p.position.x = nh.x ∧ p.position.y = nh.y))
    (h : stepBody s dir nh r = some t) :
    t.snake.length = s.snake.length + 1 ∧
    t.score = s.score + 10 * pointsMultiplier (ageBoosts s.activeBoosts) := by
  have heatb : (nh.x == s.food.x && nh.y == s.food.y) = true := by
    simp [heat.1, heat.2]
  have hfind : (s.penalties.find? fun p => p.position.x == nh.x && p.position.y == nh.y) = none := by
    rw [List.find?_eq_none]
    intro p hp
    simp only [Bool.and_eq_true, beq_iff_eq, not_and]
    exact fun hx hy => hpen p hp ⟨hx, hy⟩
  simp only [stepBody, heatb, if_true] at h
  split at h
  · exact absurd h (by simp)
  · split at h
    · exact absurd h (by simp)
    · split at h
      · exact absurd h (by simp)
      · cases h
        simp only [hfind, List.length_cons]
        exact ⟨trivial, trivial⟩

theorem stepBody_noeat {s : GameState} {dir : Direction} {nh : Position} {r : Rand}
    {t : GameState}
    (hne : (nh.x == s.food.x && nh.y == s.food.y) = false)
    (h : stepBody s dir nh r = some t) :
    t.snake.length = s.snake.length := by
  simp only [stepBody, hne, Bool.false_eq_true, if_false] at h
  split at h
  · exact absurd h (by simp)
  · split at h
    · exact absurd h (by simp)
    · cases h
      simp [List.length_dropLast]

/-- C1: on a tick that stays in bounds and avoids self-collision, eating the
food grows the snake by exactly one segment and adds 10 times the points
multiplier (2 iff a points-kind boost survives this tick's aging, else 1) to
the score; a non-eating tick leaves the snake length unchanged. -/
theorem updateGameState_growth_and_score (state : GameState) (nd : Option Direction)
    (rand : Rand) (t : GameState)
    (hsnake : state.snake ≠ [])
    (hlive : state.gameOver = false)
    (hwall : state.mode = GameMode.walls →
      isCollisionWithWalls (resolvedHead state nd) state.gridSize = false)
    (hself : isCollisionWithSelf (resolvedHead state nd) state.snake = false)
    (hpen : ∀ p ∈ state.penalties,
      ¬(p.position.x = state.food.x ∧ p.position.y = state.food.y))
    (h : updateGameState state nd rand = some t) :
    (resolvedHead state nd = state.food →
      t.snake.length = state.snake.length + 1 ∧
      t.score = state.score + 10 * pointsMultiplier (ageBoosts state.activeBoosts)) ∧
    (resolvedHead state nd ≠ state.food → t.snake.length = state.snake.length) := by
  have hb : stepBody state (resolveDirection state nd) (resolvedHead state nd) rand = some t := by
    simp only [updateGameState] at h
    cases hmode : state.mode
    case passthrough => simpa [hmode, hself] using h
    case walls => simpa [hmode, hself, hwall hmode] using h
  constructor
  · intro heq
    refine stepBody_eat ⟨congrArg Position.x heq, congrArg Position.y heq⟩ ?_ hb
    intro p hp
    rw [heq]
    exact hpen p hp
  · intro hne
    refine stepBody_noeat ?_ hb
    rcases Bool.eq_false_or_eq_true
        ((resolvedHead state nd).x == state.food.x && (resolvedHead state nd).y == state.food.y)
      with hB | hB
    · simp only [Bool.and_eq_true, beq_iff_eq] at hB
      have hfe : resolvedHead state nd = state.food := by
        cases hr : resolvedHead state nd
        cases hf : state.food
        rw [hr, hf] at hB
        simp_all
      exact absurd hfe hne
    · exact hB

/-- C1 (witness): the eat tick from `exEatState` grows the snake 2 -> 3 and
scores 10. -/
theorem updateGameState_growth_and_score_witness :
    (resolvedHead exEatState none = exEatState.food →
      exEatResult.snake.length = exEatState.snake.length + 1 ∧
      exEatResult.score = exEatState.score + 10 * pointsMultiplier (ageBoosts exEatState.activeBoosts)) ∧
    (resolvedHead exEatState none ≠ exEatState.food →
      exEatResult.snake.length = exEatState.snake.length) :=
  updateGameState_growth_and_score exEatState none exRand exEatResult
    (by decide) (by decide) (by decide) (by decide) (by decide) (by decide)

/-- C7 (amended): a single active boost with `remaining = 1` is gone after one
tick, PROVIDED the tick does not end with `gameOver = true` and the new head
does not land on a live boost cell (either of which would keep or repopulate
the active-boosts list). -/
theorem updateGameState_activeBoost_expires (state : GameState) (nd : Option Direction)
    (rand : Rand) (t : GameState) (b : ActiveBoost)
    (hact : state.activeBoosts = [b]) (hrem : b.remaining = 1)
    (hnb : ∀ bb ∈ state.boosts,
      ¬(bb.position.x = (resolvedHead state nd).x ∧ bb.position.y = (resolvedHead state nd).y))
    (h : updateGameState state nd rand = some t) (hlive : t.gameOver = false) :
    t.activeBoosts = [] := by
  simp only [updateGameState] at h
  split at h
  · cases h; simp at hlive
  · split at h
    · cases h; simp at hlive
    · rw [stepBody_activeBoosts hnb h, hact]
      simp [ageBoosts, hrem]

/-- The wall-bound state of `exWallState` carrying one active boost with
`remaining = 1`. -/
def expiryCexInput : GameState := { exWallState with activeBoosts := [⟨BoostType.points, 1⟩] }

/-- The state the engine returns from `expiryCexInput`: the wall collision
ends the game and leaves the active boost in place. -/
def expiryCexOutput : GameState :=
  { exWallState with activeBoosts := [⟨BoostType.points, 1⟩], gameOver := true }

/-- C7 (counterexample): the claim as stated is false — on a tick whose
resolved move hits a wall, the engine returns early and the active boost with
`remaining = 1` is NOT removed: the returned active-boosts list is non-empty. -/
theorem updateGameState_activeBoost_expires_cex :
    updateGameState expiryCexInput none exRand = some expiryCexOutput ∧
    expiryCexOutput.activeBoosts ≠ [] := by
  decide

/-- C7 (witness for the amended theorem): a normal eat tick with one active
boost at `remaining = 1` ends with the active-boosts list empty. -/
theorem updateGameState_activeBoost_expires_witness : exEatResult.activeBoosts = [] :=
  updateGameState_activeBoost_expires
    { exEatState with activeBoosts := [⟨BoostType.points, 1⟩] } none exRand exEatResult
    ⟨BoostType.points, 1⟩ (by decide) (by decide) (by decide) (by decide) (by decide)

/-- C8: moving onto the cell currently occupied by the snake's last (tail)
segment is treated as a self-collision and ends the game, even though on a
non-growth tick that cell would be vacated by this very move (the check in
`isCollisionWithSelf` runs against `snake.slice(1)`, which still contains the
tail). -/
theorem updateGameState_tail_cell_collision (state : GameState) (nd : Option Direction)
    (rand : Rand) (tl : Position)
    (hlen : 2 ≤ state.snake.length)
    (hlast : state.snake.getLast? = some tl)
    (hhit : resolvedHead state nd = tl)
    (hwall : state.mode = GameMode.walls →
      isCollisionWithWalls (resolvedHead state nd) state.gridSize = false) :
    updateGameState state nd rand = some { state with gameOver := true } := by
  have hself : isCollisionWithSelf (resolvedHead state nd) state.snake = true := by
    unfold isCollisionWithSelf
    apply List.any_eq_true.mpr
    refine ⟨tl, tailSeg_mem_drop_one hlen hlast, ?_⟩
    simp [hhit]
  simp only [updateGameState]
  cases hmode : state.mode
  case passthrough => simp [hmode, hself]
  case walls => simp [hmode, hself, hwall hmode]

/-- A snake curled so that its head's next move (left) lands exactly on its
tail segment (4,5); the food is elsewhere, so this is a non-growth tick. -/
def exLoopState : GameState :=
  { snake := [⟨5, 5⟩, ⟨5, 6⟩, ⟨4, 6⟩, ⟨4, 5⟩], direction := Direction.left,
    food := ⟨10, 10⟩, score := 0, gameOver := false, mode := GameMode.walls,
    gridSize := ⟨25, 25⟩, boosts := [], penalties := [], activeBoosts := [] }

/-- C8 (witness): the curled snake of `exLoopState` dies by stepping onto its
own tail cell. -/
theorem updateGameState_tail_cell_collision_witness :
    updateGameState exLoopState none exRand = some { exLoopState with gameOver := true } :=
  updateGameState_tail_cell_collision exLoopState none exRand ⟨4, 5⟩
    (by decide) (by decide) (by decide) (by decide)

theorem isOppositeDirection_self (d : Direction) : isOppositeDirection d d = false := by
  cases d <;> rfl

theorem directionScore_direction (snake : List Position) (food : Position)
    (mode : GameMode) (gridSize : Grid) (head : Position) (dir : Direction) :
    (directionScore snake food mode gridSize head dir).direction = dir := by
  simp only [directionScore]
  repeat' split
  all_goals rfl

theorem head?_some_mem {α : Type} {l : List α} {a : α} (h : l.head? = some a) : a ∈ l := by
  cases l with
  | nil => simp at h
  | cons x xs =>
    simp at h
    subst h
    exact List.mem_cons_self x xs

/-- C9: the autoplay heuristic never returns the direction opposite to the
current one — reversal is filtered out before scoring, the sorted pick is one
of the surviving candidates, and the fallback is the current direction itself. -/
theorem getSmartDirection_no_reverse (snake : List Position) (food : Position)
    (currentDirection : Direction) (mode : GameMode) (gridSize : Grid)
    (hsnake : snake ≠ []) (hw : 0 < gridSize.width) (hh : 0 < gridSize.height) :
    isOppositeDirection currentDirection
      (getSmartDirection snake food currentDirection mode gridSize) = false := by
  simp only [getSmartDirection]
  split
  case _ best heq =>
    have hmem := (List.perm_insertionSort
      (fun a b : ScoredDirection => b.score ≤ a.score) _).subset (head?_some_mem heq)
    rcases List.mem_map.mp hmem with ⟨d, hd, hfd⟩
    rw [← hfd, directionScore_direction]
    have := (List.mem_filter.mp hd).2
    simpa using this
  case _ heq => exact isOppositeDirection_self currentDirection

/-- C9 (witness): with food straight ahead on the right the chosen direction
is not the reverse of `right`. -/
theorem getSmartDirection_no_reverse_witness :
    isOppositeDirection Direction.right
      (getSmartDirection [⟨5, 5⟩, ⟨4, 5⟩] ⟨6, 5⟩ Direction.right GameMode.walls ⟨25, 25⟩) = false :=
  getSmartDirection_no_reverse [⟨5, 5⟩, ⟨4, 5⟩] ⟨6, 5⟩ Direction.right GameMode.walls ⟨25, 25⟩
    (by decide) (by decide) (by decide)

/-- Restatement: `Simple.updateGameState` on a projected full-engine state, restated with
the full engine's combinators (definitional equality). -/
theorem simpleUpdate_eq (state : GameState) (nd : Option Direction)
    (fd : Nat → Nat × Nat) (ff : Nat) :
    Simple.updateGameState (toSimple state) nd fd ff =
      (if state.mode == GameMode.walls &&
          isCollisionWithWalls (resolvedHead state nd) state.gridSize then
        some { toSimple state with gameOver := true }
      else if isCollisionWithSelf (resolvedHead state nd) state.snake then
        some { toSimple state with gameOver := true }
      else
        if (resolvedHead state nd).x == state.food.x &&
            (resolvedHead state nd).y == state.food.y then
          match generateFood fd (resolvedHead state nd :: state.snake) state.gridSize ff with
          | none => none
          | some newFood =>
            some { toSimple state with
                    snake := resolvedHead state nd :: state.snake
                    direction := resolveDirection state nd
                    food := newFood
                    score := state.score + 10 }
        else
          some { toSimple state with
                  snake := (resolvedHead state nd :: state.snake).dropLast
                  direction := resolveDirection state nd }) := rfl

/-- C10: on a state with no live boosts, no live penalties, and no active
boosts, the full engine and the simplified boost-free engine agree on the
snake, direction, score, and gameOver fields of the returned state, when both
consume the same food-placement draws. -/
theorem updateGameState_agrees_simple (state : GameState) (nd : Option Direction)
    (rand : Rand) (t : GameState) (st : Simple.GameState)
    (hb : state.boosts = []) (hp : state.penalties = []) (ha : state.activeBoosts = [])
    (hfull : updateGameState state nd rand = some t)
    (hsimple : Simple.updateGameState (toSimple state) nd rand.foodDraws rand.foodFuel = some st) :
    st.snake = t.snake ∧ st.direction = t.direction ∧ st.score = t.score ∧
      st.gameOver = t.gameOver := by
  rw [simpleUpdate_eq] at hsimple
  simp only [updateGameState] at hfull
  split at hfull
  · rename_i hc1
    rw [if_pos hc1] at hsimple
    cases hfull
    cases hsimple
    exact ⟨rfl, rfl, rfl, rfl⟩
  · rename_i hc1
    rw [if_neg hc1] at hsimple
    split at hfull
    · rename_i hc2
      rw [if_pos hc2] at hsimple
      cases hfull
      cases hsimple
      exact ⟨rfl, rfl, rfl, rfl⟩
    · rename_i hc2
      rw [if_neg hc2] at hsimple
      simp only [stepBody, hb, hp, ha, List.find?_nil] at hfull
      by_cases heats : ((resolvedHead state nd).x == state.food.x &&
          (resolvedHead state nd).y == state.food.y) = true
      · simp only [if_pos heats] at hsimple hfull
        split at hfull
        · exact absurd hfull (by simp)
        · rename_i newFood heq
          rw [heq] at hsimple
          simp only [] at hsimple
          cases hsimple
          split at hfull
          · exact absurd hfull (by simp)
          · split at hfull
            · exact absurd hfull (by simp)
            · cases hfull
              refine ⟨rfl, rfl, ?_, rfl⟩
              simp [pointsMultiplier, ageBoosts]
      · simp only [if_neg heats] at hsimple hfull
        cases hsimple
        split at hfull
        · exact absurd hfull (by simp)
        · split at hfull
          · exact absurd hfull (by simp)
          · cases hfull
            exact ⟨rfl, rfl, rfl, rfl⟩

/-- C10 (witness): the eat tick from `exEatState` under both engines. -/
theorem updateGameState_agrees_simple_witness :
    (toSimple exEatResult).snake = exEatResult.snake ∧
    (toSimple exEatResult).direction = exEatResult.direction ∧
    (toSimple exEatResult).score = exEatResult.score ∧
    (toSimple exEatResult).gameOver = exEatResult.gameOver :=
  updateGameState_agrees_simple exEatState none exRand exEatResult (toSimple exEatResult)
    (by decide) (by decide) (by decide) (by decide) (by decide)


end SnakeArena
